import Mathlib

/-!
Shallow embedding of the E-grievance platform backend (src/app.py).

The Python module is a Flask application; its decision logic is embedded here
as pure Lean functions:
  * dictionaries become association lists (`List (String × α)`), preserving
    insertion order, since Python dict iteration is insertion-ordered;
  * the process-global `OFFICER_WORKLOADS` store becomes explicit state
    passing: routing takes the current store and returns the updated one;
  * `random.randint(0, 2)` becomes an explicit `jitter : Nat` parameter;
  * `time.time() * 1000` becomes an explicit `nowMs : Nat` parameter;
  * Python's builtin `hash` (process-seeded) becomes an explicit
    `pyHash : String → Int` parameter;
  * JSON request fields accessed with `data.get(k)` / `data.get(k, d)`
    become `Option String` fields read with `Option.getD`;
  * the three `re.fullmatch` checks of `validate_citizen_input` are
    translated into executable character-class matchers.
-/

namespace EGrievance

/-- Substring search on lists of characters: does the haystack contain the
needle as a contiguous substring?  Models Python's `needle in haystack`. -/
def hasSubstrAux (needle : List Char) : List Char → Bool
  | [] => needle.isEmpty
  | c :: t => needle.isPrefixOf (c :: t) || hasSubstrAux needle t

/-- `hasSubstr hay needle` models Python's `needle in hay` on strings. -/
def hasSubstr (hay needle : String) : Bool :=
  hasSubstrAux needle.data hay.data

/-- Split a character list on a separator character; models Python's
`s.split(sep)` for a one-character separator (`"".split(sep) == ['']`,
adjacent separators produce empty groups). -/
def splitOnCharAux (sep : Char) : List Char → List (List Char)
  | [] => [[]]
  | c :: t =>
    match splitOnCharAux sep t with
    | [] => [[]]
    | g :: gs => if c == sep then [] :: g :: gs else (c :: g) :: gs

/-- Python's `s.split(sep)` for strings with a one-character separator. -/
def pySplit (s : String) (sep : Char) : List String :=
  (splitOnCharAux sep s.data).map String.mk

/-- Python's `s.lower()` (the inputs here are ASCII). -/
def pyLower (s : String) : String :=
  String.mk (s.data.map Char.toLower)

/-- Python's `s.endswith(t)`. -/
def pyEndsWith (s t : String) : Bool :=
  t.data.isSuffixOf s.data

/-! ## Mock data stores (src/app.py lines 19-64) -/

/-- `OFFICER_WORKLOADS` (app.py lines 19-24), as an insertion-ordered
association list from officer id to open-case count. -/
def OFFICER_WORKLOADS : List (String × Nat) :=
  [("Officer_A_Water", 12),
   ("Officer_B_Water", 5),
   ("Officer_C_Roads", 9),
   ("Officer_D_Roads", 15)]

/-- `DEPARTMENT_MAPPING` (app.py lines 26-48). -/
def DEPARTMENT_MAPPING : List (String × String) :=
  [("Road Maintenance", "Public_Works_Dept"),
   ("Water Supply", "Water_Supply_Dept"),
   ("Sanitation", "Sanitation_Dept"),
   ("Public Safety", "Law_Enforcement_Dept"),
   ("Illegal Construction", "Town_Planning_Dept"),
   ("Public Transport", "Transport_Dept"),
   ("Health Services", "Health_Dept"),
   ("Education Facilities", "Education_Dept"),
   ("Noise Pollution", "Environment_Dept"),
   ("Electricity", "Power_Dept"),
   ("Drainage", "Water_Supply_Dept"),
   ("Parks", "Urban_Development_Dept"),
   ("Document Delays", "General_Admin_Dept"),
   ("Official Misconduct", "Vigilance_Dept"),
   ("Animal Control", "Animal_Control_Dept"),
   ("Tree Felling", "Environment_Dept"),
   ("Traffic Signals", "Traffic_Police_Dept"),
   ("Taxes", "Revenue_Dept"),
   ("Social Welfare", "Social_Welfare_Dept"),
   ("Cyber", "IT_Dept"),
   ("Other", "General_Admin_Dept")]

/-- One record of `OFFICIALS_DB` (app.py lines 51-64). -/
structure OfficialRecord where
  password_hash : String
  govt_id : String
  department : String
  name : String
  deriving Repr, DecidableEq

/-- `OFFICIALS_DB` (app.py lines 51-64). -/
def OFFICIALS_DB : List (String × OfficialRecord) :=
  [("john.doe@gov.in",
    { password_hash := "hashed_password_doe",
      govt_id := "GOV1001A",
      department := "Water_Supply_Dept",
      name := "John Doe" }),
   ("sara.smith@gov.in",
    { password_hash := "hashed_password_smith",
      govt_id := "GOV2002B",
      department := "Public_Works_Dept",
      name := "Sara Smith" })]

/-! ## Input validation (src/app.py lines 68-91) -/

/-- The JSON body of a citizen submission; `none` models an absent key. -/
structure SubmissionData where
  description : Option String
  category : Option String
  phone : Option String
  public_id : Option String
  email : Option String
  location_coords : Option String
  deriving Repr, DecidableEq

/-- Semantics of `re.fullmatch(r'^\d{10}$', phone)` (app.py line 78):
exactly ten digit characters. -/
def phoneOk (phone : String) : Bool :=
  phone.length == 10 && phone.data.all Char.isDigit

/-- Semantics of `re.fullmatch(r'^[0-9A-Z]{10,12}$', public_id)`
(app.py line 83): 10 to 12 characters, each a digit or uppercase letter. -/
def publicIdOk (s : String) : Bool :=
  decide (10 ≤ s.length) && decide (s.length ≤ 12) &&
    s.data.all (fun c => c.isDigit || c.isUpper)

/-- Character class `[a-zA-Z0-9._%+-]` of the email regex local part. -/
def isLocalChar (c : Char) : Bool :=
  c.isAlpha || c.isDigit || c == '.' || c == '_' || c == '%' || c == '+' || c == '-'

/-- Character class `[a-zA-Z0-9.-]` of the email regex domain part. -/
def isDomainChar (c : Char) : Bool :=
  c.isAlpha || c.isDigit || c == '.' || c == '-'

/-- Split a character list at its last dot, returning the parts before and
after it; `none` when there is no dot. -/
def splitLastDot : List Char → Option (List Char × List Char)
  | [] => none
  | c :: cs =>
    match splitLastDot cs with
    | some (pre, post) => some (c :: pre, post)
    | none => if c == '.' then some ([], cs) else none

/-- Semantics of
`re.fullmatch(r'^[a-zA-Z0-9._%+-]+@[a-zA-Z0-9.-]+\.[a-zA-Z]{2,}$', email)`
(app.py line 88).  Both character classes exclude `@`, so a full match forces
exactly one `@`; the `[a-zA-Z]{2,}` tail contains no dot, so the mandatory
dot of the pattern is the last dot of the domain part. -/
def emailOk (s : String) : Bool :=
  match splitOnCharAux '@' s.data with
  | [localPart, domainPart] =>
    !localPart.isEmpty && localPart.all isLocalChar &&
      (match splitLastDot domainPart with
       | some (pre, tld) =>
         !pre.isEmpty && pre.all isDomainChar &&
           decide (2 ≤ tld.length) && tld.all Char.isAlpha
       | none => false)
  | _ => false

/-- `validate_citizen_input` (app.py lines 68-91).  The `errors` dict becomes
an insertion-ordered association list from field name to message; a missing
field defaults to the empty string via `data.get(k, '')`. -/
def validate_citizen_input (data : SubmissionData) : List (String × String) :=
  let phone := data.phone.getD ""
  let public_id := data.public_id.getD ""
  let email := data.email.getD ""
  (if phoneOk phone then [] else
    [("phone", "Phone number must be exactly 10 digits.")]) ++
  (if publicIdOk public_id then [] else
    [("public_id", "Public ID must be 10 to 12 alphanumeric characters.")]) ++
  (if emailOk email then [] else
    [("email", "Invalid email format.")])

/-! ## AI processing and routing (src/app.py lines 95-144) -/

/-- `generate_unique_id` (app.py lines 95-97); `nowMs` stands for
`int(time.time() * 1000)`. -/
def generate_unique_id (nowMs : Nat) : String :=
  "GRV-" ++ toString (nowMs % 1000000)

/-- `ai_categorize_and_score` (app.py lines 99-119); `jitter` stands for
`random.randint(0, 2)`. -/
def ai_categorize_and_score (description citizen_category : String)
    (jitter : Nat) : String × Int :=
  let keywords := pyLower description
  let refined_category :=
    if hasSubstr keywords "pothole" || hasSubstr keywords "cracked road" then
      "Pothole_Major"
    else if hasSubstr keywords "leakage" || hasSubstr keywords "no water" then
      "Water_Leakage_Critical"
    else
      citizen_category
  let critical_keywords_found :=
    (["dangerous", "urgent", "fatal", "flooding"].filter
      (fun word => hasSubstr keywords word)).length
  let priority_score : Int := 3 + (jitter : Int) + (critical_keywords_found : Int) * 2
  let priority_score :=
    if hasSubstr (pyLower refined_category) "critical" ||
        hasSubstr (pyLower citizen_category) "safety" then
      priority_score + 2
    else
      priority_score
  (refined_category, min 10 priority_score)

/-- Department resolution step of `smart_route_and_assign`
(app.py lines 124-125): `DEPARTMENT_MAPPING.get(refined_category.split('_')[0],
'General_Admin_Dept')`. -/
def resolveDepartment (refined_category : String) : String :=
  let base_category := (pySplit refined_category '_').headD ""
  (DEPARTMENT_MAPPING.lookup base_category).getD "General_Admin_Dept"

/-- Python's `min(officers, key=officers.get)` over a nonempty association
list: the first entry holding the minimal count (ties keep the earlier
entry, as `min` only replaces on a strictly smaller key). -/
def leastLoaded (o : String × Nat) (os : List (String × Nat)) : String × Nat :=
  os.foldl (fun cur y => if y.2 < cur.2 then y else cur) o

/-- `OFFICER_WORKLOADS[assigned_officer] += 1` (app.py line 142) on the
association-list store. -/
def incrementKey (w : List (String × Nat)) (k : String) : List (String × Nat) :=
  w.map (fun kv => if kv.1 == k then (kv.1, kv.2 + 1) else kv)

/-- The officer-affinity token of `smart_route_and_assign`
(app.py lines 127-129): `dept_prefix = target_department.split('_')[0]`
followed by the redundant `dept_prefix.split('_')[0]` in the comprehension. -/
def deptToken (target_department : String) : String :=
  let dept_head := (pySplit target_department '_').headD ""
  (pySplit dept_head '_').headD ""

/-- The `department_officers` dict comprehension of `smart_route_and_assign`
(app.py lines 128-130): entries whose officer id ends with the department's
leading token. -/
def departmentOfficers (target_department : String)
    (workloads : List (String × Nat)) : List (String × Nat) :=
  workloads.filter (fun kv => pyEndsWith kv.1 (deptToken target_department))

/-- `smart_route_and_assign` (app.py lines 121-144) with the global
`OFFICER_WORKLOADS` passed and returned explicitly.  Result:
`((target_department, assignee), updated workloads)`. -/
def smart_route_and_assign (refined_category : String) (priority_score : Int)
    (location_coords : String) (workloads : List (String × Nat)) :
    (String × String) × List (String × Nat) :=
  let target_department := resolveDepartment refined_category
  match departmentOfficers target_department workloads with
  | [] => ((target_department, target_department ++ "_Manager"), workloads)
  | o :: os =>
    if 8 ≤ priority_score then
      ((target_department, target_department ++ "_Manager"), workloads)
    else
      let assigned_officer := (leastLoaded o os).1
      ((target_department, assigned_officer), incrementKey workloads assigned_officer)

/-! ## Complaint submission endpoint (src/app.py lines 148-193) -/

/-- The JSON response of `/api/submit_complaint`, with the HTTP status code;
fields absent from a branch's payload are `none`. -/
structure SubmitResponse where
  success : Bool
  http_status : Nat
  message : Option String
  errors : Option (List (String × String))
  tracking_id : Option String
  status : Option String
  assigned_to : Option String
  priority : Option Int
  deriving Repr, DecidableEq

/-- `submit_complaint` (app.py lines 148-193), the non-exceptional path:
validation, then id generation, AI processing, routing, and response
assembly.  State passing as in `smart_route_and_assign`. -/
def submit_complaint (complaint_data : SubmissionData) (nowMs : Nat)
    (jitter : Nat) (workloads : List (String × Nat)) :
    SubmitResponse × List (String × Nat) :=
  let validation_errors := validate_citizen_input complaint_data
  if !validation_errors.isEmpty then
    ({ success := false,
       http_status := 400,
       message := some "One or more input fields failed server validation.",
       errors := some validation_errors,
       tracking_id := none, status := none, assigned_to := none,
       priority := none }, workloads)
  else
    let tracking_id := generate_unique_id nowMs
    let rs := ai_categorize_and_score (complaint_data.description.getD "")
      (complaint_data.category.getD "Other") jitter
    let ta := smart_route_and_assign rs.1 rs.2
      (complaint_data.location_coords.getD "N/A") workloads
    ({ success := true,
       http_status := 200,
       message := none,
       errors := none,
       tracking_id := some tracking_id,
       status := some "Under Review",
       assigned_to := some ta.1.2,
       priority := some rs.2 }, ta.2)

/-! ## Official login endpoint (src/app.py lines 196-241) -/

/-- Outcome of `/api/official/login`: the four distinct response shapes of
`official_login` (app.py lines 196-241).  `missingFields` is the 400
response, `invalidCredentials` the 401 "Invalid credentials." response
(unknown user and failed credential check collapse here, as in the code),
`govtIdMismatch` the 401 "Unique Government ID mismatch." response. -/
inductive LoginResult where
  | success (token : String) (department : String) (official_name : String)
  | missingFields
  | invalidCredentials
  | govtIdMismatch
  deriving Repr, DecidableEq

/-- Python truthiness of an optional JSON string: `None` and `""` are falsy. -/
def truthy : Option String → Bool
  | none => false
  | some s => !(s == "")

/-- `official_login` (app.py lines 196-241).  `pyHash` stands for Python's
process-seeded builtin `hash`; `data.get` of an absent key is `none`. -/
def official_login (pyHash : String → Int)
    (username password govt_id : Option String) : LoginResult :=
  if !(truthy username) || !(truthy password) || !(truthy govt_id) then
    .missingFields
  else
    let u := username.getD ""
    match OFFICIALS_DB.lookup u with
    | none => .invalidCredentials
    | some official_record =>
      if official_record.password_hash ≠
          "hashed_password_" ++ (pySplit ((pySplit u '@').headD "") '.').getLastD "" then
        .invalidCredentials
      else if official_record.govt_id ≠ govt_id.getD "" then
        .govtIdMismatch
      else
        .success ("JWT." ++ official_record.department ++ "." ++ toString (pyHash u))
          official_record.department official_record.name

/-! ## Spec-side formulations (for refinement comparison)

The following predicates are written from the WORDS of the specification
(§4.1), independently of the regex translation above, so that the
validation claim can compare the two. -/

/-- Spec wording: the phone value is exactly ten decimal digits. -/
def SpecPhonePattern (s : String) : Prop :=
  s.length = 10 ∧ ∀ c ∈ s.data, '0' ≤ c ∧ c ≤ '9'

/-- Spec wording: the public id is 10 to 12 characters, each a decimal digit
or an uppercase letter A-Z. -/
def SpecPublicIdPattern (s : String) : Prop :=
  10 ≤ s.length ∧ s.length ≤ 12 ∧
    ∀ c ∈ s.data, ('0' ≤ c ∧ c ≤ '9') ∨ ('A' ≤ c ∧ c ≤ 'Z')

/-- Spec wording of the `local@domain.tld` shape: one or more local-part
characters, an `@`, a nonempty domain over its character class, a dot, and a
final label of at least two letters. -/
def SpecEmailPattern (s : String) : Prop :=
  ∃ localPart domainPart tld : List Char,
    s.data = localPart ++ '@' :: (domainPart ++ '.' :: tld) ∧
    localPart ≠ [] ∧ (∀ c ∈ localPart, isLocalChar c = true) ∧
    domainPart ≠ [] ∧ (∀ c ∈ domainPart, isDomainChar c = true) ∧
    2 ≤ tld.length ∧ (∀ c ∈ tld, c.isAlpha = true)

/-- The end-to-end scenario submission of spec §8. -/
def scenarioData : SubmissionData :=
  { description := some "Major pothole causing dangerous flooding",
    category := some "Road Maintenance",
    phone := some "9876543210",
    public_id := some "AB12345678",
    email := some "a@b.com",
    location_coords := none }

/-! ## Helper lemmas about the load-balancing fold -/

theorem leastLoaded_mem : ∀ (os : List (String × Nat)) (o : String × Nat),
    leastLoaded o os ∈ o :: os := by
  intro os
  induction os with
  | nil => intro o; simp [leastLoaded]
  | cons y t ih =>
    intro o
    have h := ih (if y.2 < o.2 then y else o)
    simp only [leastLoaded, List.foldl_cons] at h ⊢
    rcases List.mem_cons.mp h with h1 | h1
    · rw [h1]
      split
      · exact List.mem_cons_of_mem _ (List.mem_cons_self _ _)
      · exact List.mem_cons_self _ _
    · exact List.mem_cons_of_mem _ (List.mem_cons_of_mem _ h1)

theorem leastLoaded_le : ∀ (os : List (String × Nat)) (o p : String × Nat),
    p ∈ o :: os → (leastLoaded o os).2 ≤ p.2 := by
  intro os
  induction os with
  | nil =>
    intro o p hp
    rw [List.mem_singleton] at hp
    rw [hp]
    simp [leastLoaded]
  | cons y t ih =>
    intro o p hp
    have hself := ih (if y.2 < o.2 then y else o) _ (List.mem_cons_self _ _)
    simp only [leastLoaded, List.foldl_cons] at hself ⊢
    rcases List.mem_cons.mp hp with h1 | h1
    · rw [h1]
      refine le_trans hself ?_
      split <;> omega
    · rcases List.mem_cons.mp h1 with h2 | h2
      · rw [h2]
        refine le_trans hself ?_
        split <;> omega
      · have := ih (if y.2 < o.2 then y else o) p (List.mem_cons_of_mem _ h2)
        simpa [leastLoaded] using this

theorem leastLoaded_eq_of_strict_min (o : String × Nat) (os : List (String × Nat))
    (x : String × Nat) (hx : x ∈ o :: os)
    (hmin : ∀ p ∈ o :: os, p ≠ x → x.2 < p.2) :
    leastLoaded o os = x := by
  by_contra hne
  have hmem := leastLoaded_mem os o
  have hlt := hmin _ hmem hne
  have hle := leastLoaded_le os o x hx
  omega

/-! ## Helper lemmas for the validation patterns -/

theorem isDigit_iff (c : Char) : c.isDigit = true ↔ '0' ≤ c ∧ c ≤ '9' := by
  simp only [Char.isDigit, ge_iff_le, Bool.and_eq_true, decide_eq_true_eq, Char.le_def]
  exact Iff.rfl

theorem isUpper_iff (c : Char) : c.isUpper = true ↔ 'A' ≤ c ∧ c ≤ 'Z' := by
  simp only [Char.isUpper, ge_iff_le, Bool.and_eq_true, decide_eq_true_eq, Char.le_def]
  exact Iff.rfl

theorem phoneOk_iff (s : String) : phoneOk s = true ↔ SpecPhonePattern s := by
  simp only [phoneOk, SpecPhonePattern, Bool.and_eq_true, beq_iff_eq, List.all_eq_true]
  constructor
  · rintro ⟨h1, h2⟩
    exact ⟨h1, fun c hc => (isDigit_iff c).mp (h2 c hc)⟩
  · rintro ⟨h1, h2⟩
    exact ⟨h1, fun c hc => (isDigit_iff c).mpr (h2 c hc)⟩

theorem publicIdOk_iff (s : String) : publicIdOk s = true ↔ SpecPublicIdPattern s := by
  simp only [publicIdOk, SpecPublicIdPattern, Bool.and_eq_true, decide_eq_true_eq,
    List.all_eq_true, Bool.or_eq_true, and_assoc]
  constructor <;> rintro ⟨h1, h2, h3⟩ <;> refine ⟨h1, h2, fun c hc => ?_⟩
  · rcases h3 c hc with h | h
    · exact Or.inl ((isDigit_iff c).mp h)
    · exact Or.inr ((isUpper_iff c).mp h)
  · rcases h3 c hc with h | h
    · exact Or.inl ((isDigit_iff c).mpr h)
    · exact Or.inr ((isUpper_iff c).mpr h)

theorem splitLastDot_eq_none (l : List Char) (h : '.' ∉ l) : splitLastDot l = none := by
  induction l with
  | nil => rfl
  | cons c cs ih =>
    simp only [List.mem_cons, not_or] at h
    have hne : (c == '.') = false := beq_eq_false_iff_ne.mpr (fun hc => h.1 hc.symm)
    simp only [splitLastDot, ih h.2, hne, Bool.false_eq_true, if_false]

theorem not_mem_of_splitLastDot_none :
    ∀ (l : List Char), splitLastDot l = none → '.' ∉ l := by
  intro l
  induction l with
  | nil => intro _; simp
  | cons c cs ih =>
    intro h
    simp only [splitLastDot] at h
    cases hcs : splitLastDot cs with
    | some pp => rw [hcs] at h; simp at h
    | none =>
      rw [hcs] at h
      by_cases hc : c = '.'
      · rw [hc] at h; simp at h
      · simp only [List.mem_cons, not_or]
        exact ⟨fun hd => hc hd.symm, ih hcs⟩

theorem splitLastDot_append (pre post : List Char) (h : '.' ∉ post) :
    splitLastDot (pre ++ '.' :: post) = some (pre, post) := by
  induction pre with
  | nil =>
    simp only [List.nil_append, splitLastDot, splitLastDot_eq_none post h]
    simp
  | cons c pre' ih =>
    simp only [List.cons_append, splitLastDot, List.append_eq, ih]

theorem splitLastDot_spec :
    ∀ (l pre post : List Char), splitLastDot l = some (pre, post) →
      l = pre ++ '.' :: post ∧ '.' ∉ post := by
  intro l
  induction l with
  | nil => intro pre post h; simp [splitLastDot] at h
  | cons c cs ih =>
    intro pre post h
    simp only [splitLastDot] at h
    cases hcs : splitLastDot cs with
    | some pp =>
      obtain ⟨pp1, pp2⟩ := pp
      rw [hcs] at h
      simp only [Option.some.injEq, Prod.mk.injEq] at h
      obtain ⟨h1, h2⟩ := h
      have hrec := ih pp1 pp2 hcs
      subst h1
      subst h2
      exact ⟨by rw [List.cons_append, ← hrec.1], hrec.2⟩
    | none =>
      rw [hcs] at h
      by_cases hcd : c = '.'
      · rw [hcd] at h ⊢
        simp only [beq_self_eq_true, if_true, Option.some.injEq, Prod.mk.injEq] at h
        obtain ⟨h1, h2⟩ := h
        subst h1
        subst h2
        exact ⟨by rw [List.nil_append], not_mem_of_splitLastDot_none cs hcs⟩
      · have hne : (c == '.') = false := beq_eq_false_iff_ne.mpr hcd
        rw [hne] at h
        simp at h

theorem splitOnCharAux_ne_nil (sep : Char) (l : List Char) :
    splitOnCharAux sep l ≠ [] := by
  cases l with
  | nil => simp [splitOnCharAux]
  | cons c t =>
    simp only [splitOnCharAux]
    cases h : splitOnCharAux sep t with
    | nil => simp
    | cons g gs =>
      by_cases hc : (c == sep) = true
      · simp [hc]
      · simp [hc]

theorem splitOnCharAux_of_not_mem (sep : Char) :
    ∀ (l : List Char), sep ∉ l → splitOnCharAux sep l = [l] := by
  intro l
  induction l with
  | nil => intro _; rfl
  | cons c t ih =>
    intro h
    simp only [List.mem_cons, not_or] at h
    have hne : (c == sep) = false := beq_eq_false_iff_ne.mpr (fun hc => h.1 hc.symm)
    simp only [splitOnCharAux, ih h.2, hne, Bool.false_eq_true, if_false]

theorem splitOnCharAux_one (sep : Char) :
    ∀ (l g : List Char), splitOnCharAux sep l = [g] → l = g ∧ sep ∉ l := by
  intro l
  induction l with
  | nil =>
    intro g h
    simp only [splitOnCharAux, List.cons.injEq, and_true] at h
    exact ⟨h, by simp⟩
  | cons c t ih =>
    intro g h
    cases hcs : splitOnCharAux sep t with
    | nil => exact absurd hcs (splitOnCharAux_ne_nil sep t)
    | cons g1 gs =>
      simp only [splitOnCharAux, hcs] at h
      by_cases hc : (c == sep) = true
      · rw [if_pos hc] at h
        simp at h
      · rw [if_neg hc] at h
        simp only [List.cons.injEq] at h
        obtain ⟨h1, h2⟩ := h
        have hrec := ih g1 (by rw [hcs, h2])
        have hcsep : c ≠ sep := fun hce => hc (by simp [hce])
        constructor
        · rw [hrec.1]; exact h1
        · simp only [List.mem_cons, not_or]
          exact ⟨fun hd => hcsep hd.symm, hrec.2⟩

theorem splitOnCharAux_pair (sep : Char) :
    ∀ (l g1 g2 : List Char), splitOnCharAux sep l = [g1, g2] →
      l = g1 ++ sep :: g2 ∧ sep ∉ g1 ∧ sep ∉ g2 := by
  intro l
  induction l with
  | nil => intro g1 g2 h; simp [splitOnCharAux] at h
  | cons c t ih =>
    intro g1 g2 h
    cases hcs : splitOnCharAux sep t with
    | nil => exact absurd hcs (splitOnCharAux_ne_nil sep t)
    | cons g gs =>
      simp only [splitOnCharAux, hcs] at h
      by_cases hc : (c == sep) = true
      · rw [if_pos hc] at h
        simp only [List.cons.injEq] at h
        obtain ⟨h1, h2, h3⟩ := h
        have hone := splitOnCharAux_one sep t g2 (by rw [hcs, h2, h3])
        have hcd : c = sep := by simpa using hc
        refine ⟨?_, ?_, ?_⟩
        · rw [← h1, List.nil_append, hcd, hone.1]
        · rw [← h1]; simp
        · rw [← hone.1]; exact hone.2
      · rw [if_neg hc] at h
        simp only [List.cons.injEq] at h
        obtain ⟨h1, h2⟩ := h
        have hrec := ih g g2 (by rw [hcs, h2])
        have hcsep : c ≠ sep := fun hce => hc (by simp [hce])
        refine ⟨?_, ?_, hrec.2.2⟩
        · rw [← h1, List.cons_append, hrec.1]
        · rw [← h1]
          simp only [List.mem_cons, not_or]
          exact ⟨fun hd => hcsep hd.symm, hrec.2.1⟩

theorem splitOnCharAux_pair_of (sep : Char) (g1 g2 : List Char)
    (h1 : sep ∉ g1) (h2 : sep ∉ g2) :
    splitOnCharAux sep (g1 ++ sep :: g2) = [g1, g2] := by
  induction g1 with
  | nil =>
    simp only [List.nil_append, splitOnCharAux, splitOnCharAux_of_not_mem sep g2 h2]
    simp
  | cons c t ih =>
    simp only [List.mem_cons, not_or] at h1
    have hne : (c == sep) = false := beq_eq_false_iff_ne.mpr (fun hc => h1.1 hc.symm)
    simp only [List.cons_append, splitOnCharAux, List.append_eq, ih h1.2, hne,
      Bool.false_eq_true, if_false]

theorem emailOk_iff (s : String) : emailOk s = true ↔ SpecEmailPattern s := by
  constructor
  · intro h
    simp only [emailOk] at h
    split at h
    next localPart domainPart heq =>
      split at h
      next pre tld heq2 =>
        simp only [Bool.and_eq_true, Bool.not_eq_true', List.isEmpty_eq_false,
          List.all_eq_true, decide_eq_true_eq] at h
        obtain ⟨⟨hl1, hl2⟩, hh⟩ := h
        obtain ⟨⟨⟨hp1, hp2⟩, htl⟩, hta⟩ := hh
        have hs := splitOnCharAux_pair '@' s.data localPart domainPart heq
        have hd := splitLastDot_spec domainPart pre tld heq2
        refine ⟨localPart, pre, tld, ?_, hl1, hl2, hp1, hp2, htl, hta⟩
        rw [hs.1, hd.1]
      next => simp at h
    all_goals simp at h
  · rintro ⟨localPart, domainPart, tld, hdata, hl1, hl2, hd1, hd2, ht1, ht2⟩
    have hat1 : '@' ∉ localPart := fun hm => absurd (hl2 _ hm) (by decide)
    have hat2 : '@' ∉ domainPart ++ '.' :: tld := by
      intro hm
      rcases List.mem_append.mp hm with hm | hm
      · exact absurd (hd2 _ hm) (by decide)
      · rcases List.mem_cons.mp hm with hm | hm
        · exact absurd hm (by decide)
        · exact absurd (ht2 _ hm) (by decide)
    have hdot : '.' ∉ tld := fun hm => absurd (ht2 _ hm) (by decide)
    simp only [emailOk, hdata, splitOnCharAux_pair_of '@' localPart _ hat1 hat2]
    simp only [splitLastDot_append domainPart tld hdot]
    simp only [Bool.and_eq_true, Bool.not_eq_true', List.isEmpty_eq_false,
      List.all_eq_true, decide_eq_true_eq]
    exact ⟨⟨hl1, hl2⟩, ⟨⟨⟨hd1, hd2⟩, ht1⟩, ht2⟩⟩

/-! ## Claim theorems -/

/-- Claim C3: `validate_citizen_input` returns an empty error set iff the
phone is exactly ten decimal digits, the public id is 10 to 12 characters
over digits and uppercase A-Z, and the email matches the `local@domain.tld`
shape; the three rules are independent — a field's error key is present
exactly when its value fails its pattern — and a missing field (modelled as
`none`, read as the empty string) always produces its error key. -/
theorem validate_citizen_input_spec (d : SubmissionData) :
    (validate_citizen_input d = [] ↔
      SpecPhonePattern (d.phone.getD "") ∧ SpecPublicIdPattern (d.public_id.getD "") ∧
        SpecEmailPattern (d.email.getD "")) ∧
    ("phone" ∈ (validate_citizen_input d).map Prod.fst ↔
      ¬ SpecPhonePattern (d.phone.getD "")) ∧
    ("public_id" ∈ (validate_citizen_input d).map Prod.fst ↔
      ¬ SpecPublicIdPattern (d.public_id.getD "")) ∧
    ("email" ∈ (validate_citizen_input d).map Prod.fst ↔
      ¬ SpecEmailPattern (d.email.getD "")) ∧
    (d.phone = none → "phone" ∈ (validate_citizen_input d).map Prod.fst) ∧
    (d.public_id = none → "public_id" ∈ (validate_citizen_input d).map Prod.fst) ∧
    (d.email = none → "email" ∈ (validate_citizen_input d).map Prod.fst) := by
  have main : (validate_citizen_input d = [] ↔
      phoneOk (d.phone.getD "") = true ∧ publicIdOk (d.public_id.getD "") = true ∧
        emailOk (d.email.getD "") = true) ∧
      ("phone" ∈ (validate_citizen_input d).map Prod.fst ↔
        phoneOk (d.phone.getD "") = false) ∧
      ("public_id" ∈ (validate_citizen_input d).map Prod.fst ↔
        publicIdOk (d.public_id.getD "") = false) ∧
      ("email" ∈ (validate_citizen_input d).map Prod.fst ↔
        emailOk (d.email.getD "") = false) := by
    rcases hph : phoneOk (d.phone.getD "") <;>
      rcases hid : publicIdOk (d.public_id.getD "") <;>
      rcases hem : emailOk (d.email.getD "") <;>
      simp [validate_citizen_input, hph, hid, hem]
  refine ⟨?_, ?_, ?_, ?_, ?_, ?_, ?_⟩
  · rw [main.1, phoneOk_iff, publicIdOk_iff, emailOk_iff]
  · rw [main.2.1, ← phoneOk_iff]
    simp
  · rw [main.2.2.1, ← publicIdOk_iff]
    simp
  · rw [main.2.2.2, ← emailOk_iff]
    simp
  · intro h
    refine main.2.1.mpr ?_
    rw [h]
    decide
  · intro h
    refine main.2.2.1.mpr ?_
    rw [h]
    decide
  · intro h
    refine main.2.2.2.mpr ?_
    rw [h]
    decide

/-- Witness for C3: a submission with every field absent fails all three
patterns, and a fully valid one succeeds. -/
theorem validate_citizen_input_spec_witness :
    "phone" ∈ (validate_citizen_input
      { description := none, category := none, phone := none,
        public_id := none, email := none, location_coords := none }).map Prod.fst :=
  (validate_citizen_input_spec
    { description := none, category := none, phone := none,
      public_id := none, email := none, location_coords := none }).2.2.2.2.1 rfl

/-- Claim C4: for every refined category and every priority score at least 8,
`smart_route_and_assign` returns the resolved department name suffixed with
`"_Manager"` as the assignee, and returns the workload store unchanged. -/
theorem smart_route_priority_override (rc : String) (score : Int) (loc : String)
    (w : List (String × Nat)) (h : 8 ≤ score) :
    (smart_route_and_assign rc score loc w).1.2 = resolveDepartment rc ++ "_Manager" ∧
    (smart_route_and_assign rc score loc w).2 = w := by
  have key : smart_route_and_assign rc score loc w
      = ((resolveDepartment rc, resolveDepartment rc ++ "_Manager"), w) := by
    simp only [smart_route_and_assign]
    split
    · rfl
    · rw [if_pos h]
  rw [key]
  exact ⟨rfl, rfl⟩

/-- Witness for C4: a score-9 pothole complaint is escalated to
`General_Admin_Dept_Manager` and the seeded workload store is untouched. -/
theorem smart_route_priority_override_witness :
    (smart_route_and_assign "Pothole_Major" 9 "N/A" OFFICER_WORKLOADS).1.2
      = resolveDepartment "Pothole_Major" ++ "_Manager" ∧
    (smart_route_and_assign "Pothole_Major" 9 "N/A" OFFICER_WORKLOADS).2
      = OFFICER_WORKLOADS :=
  smart_route_priority_override "Pothole_Major" 9 "N/A" OFFICER_WORKLOADS (by decide)

/-- Claim C5: for a routing call with priority score below 8 on a department
with a matching officer of strictly lowest open-case count, that officer is
selected and exactly its counter is incremented by one (every other entry of
the store is unchanged, as `incrementKey` rewrites only the selected key). -/
theorem smart_route_load_balancing (rc : String) (score : Int) (loc : String)
    (w : List (String × Nat)) (o : String × Nat)
    (hscore : score < 8)
    (hmem : o ∈ departmentOfficers (resolveDepartment rc) w)
    (hmin : ∀ p ∈ departmentOfficers (resolveDepartment rc) w, p ≠ o → o.2 < p.2) :
    (smart_route_and_assign rc score loc w).1.2 = o.1 ∧
    (smart_route_and_assign rc score loc w).2 = incrementKey w o.1 := by
  have key : smart_route_and_assign rc score loc w
      = ((resolveDepartment rc, o.1), incrementKey w o.1) := by
    simp only [smart_route_and_assign]
    split
    · next heq =>
      rw [heq] at hmem
      exact absurd hmem (List.not_mem_nil o)
    · next o0 os heq =>
      rw [heq] at hmem hmin
      rw [if_neg (by omega : ¬ (8 : Int) ≤ score)]
      rw [leastLoaded_eq_of_strict_min o0 os o hmem hmin]
  rw [key]
  exact ⟨rfl, rfl⟩

/-- Witness for C5: the spec's own example — officers at counts 5 and 12 in
the water department, a score-5 submission: the count-5 officer
`Officer_B_Water` is chosen and its count becomes 6, the count-12 officer
stays at 12. -/
theorem smart_route_load_balancing_witness :
    ((smart_route_and_assign "Water Supply" 5 "N/A" OFFICER_WORKLOADS).1.2
        = "Officer_B_Water" ∧
      (smart_route_and_assign "Water Supply" 5 "N/A" OFFICER_WORKLOADS).2
        = incrementKey OFFICER_WORKLOADS "Officer_B_Water") ∧
    incrementKey OFFICER_WORKLOADS "Officer_B_Water"
      = [("Officer_A_Water", 12), ("Officer_B_Water", 6),
         ("Officer_C_Roads", 9), ("Officer_D_Roads", 15)] :=
  ⟨smart_route_load_balancing "Water Supply" 5 "N/A" OFFICER_WORKLOADS
      ("Officer_B_Water", 5) (by decide) (by decide) (by decide),
    by decide⟩

/-- Claim C7: for every description, declared category, and jitter value in
{0, 1, 2}, the priority score of `ai_categorize_and_score` lies between 3 and
10 inclusive. -/
theorem ai_score_bounds (desc cat : String) (jitter : Nat) (h : jitter ≤ 2) :
    3 ≤ (ai_categorize_and_score desc cat jitter).2 ∧
    (ai_categorize_and_score desc cat jitter).2 ≤ 10 := by
  simp only [ai_categorize_and_score]
  split <;>
    · constructor <;>
        · rw [Int.min_def]
          split <;> omega

/-- Witness for C7: bounds hold on a concrete submission with jitter 0. -/
theorem ai_score_bounds_witness :
    3 ≤ (ai_categorize_and_score "dangerous leakage" "Public Safety" 0).2 ∧
    (ai_categorize_and_score "dangerous leakage" "Public Safety" 0).2 ≤ 10 :=
  ai_score_bounds "dangerous leakage" "Public Safety" 0 (by decide)

/-- Claim C6: the refined category of `ai_categorize_and_score` is
`"Pothole_Major"` whenever the lowercased description contains `"pothole"` or
`"cracked road"` (regardless of the declared category); otherwise
`"Water_Leakage_Critical"` when it contains `"leakage"` or `"no water"`;
otherwise the declared category unchanged. -/
theorem ai_categorize_refined_category (desc cat : String) (jitter : Nat) :
    ((hasSubstr (pyLower desc) "pothole" = true ∨
        hasSubstr (pyLower desc) "cracked road" = true) →
      (ai_categorize_and_score desc cat jitter).1 = "Pothole_Major") ∧
    (hasSubstr (pyLower desc) "pothole" = false →
      hasSubstr (pyLower desc) "cracked road" = false →
      (hasSubstr (pyLower desc) "leakage" = true ∨
        hasSubstr (pyLower desc) "no water" = true) →
      (ai_categorize_and_score desc cat jitter).1 = "Water_Leakage_Critical") ∧
    (hasSubstr (pyLower desc) "pothole" = false →
      hasSubstr (pyLower desc) "cracked road" = false →
      hasSubstr (pyLower desc) "leakage" = false →
      hasSubstr (pyLower desc) "no water" = false →
      (ai_categorize_and_score desc cat jitter).1 = cat) := by
  refine ⟨?_, ?_, ?_⟩
  · rintro (h | h) <;> simp [ai_categorize_and_score, h]
  · rintro h1 h2 (h | h) <;> simp [ai_categorize_and_score, h1, h2, h]
  · rintro h1 h2 h3 h4
    simp [ai_categorize_and_score, h1, h2, h3, h4]

/-- Witness for C6: a pothole description with an unrelated declared category
is refined to `"Pothole_Major"`. -/
theorem ai_categorize_refined_category_witness :
    (ai_categorize_and_score "there is a pothole here" "Water Supply" 2).1
      = "Pothole_Major" :=
  (ai_categorize_refined_category "there is a pothole here" "Water Supply" 2).1
    (Or.inl (by decide))

/-- Claim C8: when validation yields a non-empty error set,
`submit_complaint` returns a 400 failure carrying exactly those field-level
errors, with no tracking id, assignment or priority, and the workload store
is returned unchanged (classification and routing are never reached). -/
theorem submit_complaint_validation_failure (d : SubmissionData)
    (nowMs jitter : Nat) (w : List (String × Nat))
    (h : validate_citizen_input d ≠ []) :
    (submit_complaint d nowMs jitter w).1.success = false ∧
    (submit_complaint d nowMs jitter w).1.http_status = 400 ∧
    (submit_complaint d nowMs jitter w).1.errors = some (validate_citizen_input d) ∧
    (submit_complaint d nowMs jitter w).1.tracking_id = none ∧
    (submit_complaint d nowMs jitter w).1.assigned_to = none ∧
    (submit_complaint d nowMs jitter w).1.priority = none ∧
    (submit_complaint d nowMs jitter w).2 = w := by
  have hne : (validate_citizen_input d).isEmpty = false := by
    cases hv : validate_citizen_input d with
    | nil => exact absurd hv h
    | cons e es => rfl
  simp [submit_complaint, hne]

/-- Witness for C8: the all-absent submission is rejected with the store
untouched. -/
theorem submit_complaint_validation_failure_witness :
    (submit_complaint
      { description := none, category := none, phone := none,
        public_id := none, email := none, location_coords := none }
      1234 0 OFFICER_WORKLOADS).1.success = false ∧
    (submit_complaint
      { description := none, category := none, phone := none,
        public_id := none, email := none, location_coords := none }
      1234 0 OFFICER_WORKLOADS).1.http_status = 400 ∧
    (submit_complaint
      { description := none, category := none, phone := none,
        public_id := none, email := none, location_coords := none }
      1234 0 OFFICER_WORKLOADS).1.errors = some (validate_citizen_input
      { description := none, category := none, phone := none,
        public_id := none, email := none, location_coords := none }) ∧
    (submit_complaint
      { description := none, category := none, phone := none,
        public_id := none, email := none, location_coords := none }
      1234 0 OFFICER_WORKLOADS).1.tracking_id = none ∧
    (submit_complaint
      { description := none, category := none, phone := none,
        public_id := none, email := none, location_coords := none }
      1234 0 OFFICER_WORKLOADS).1.assigned_to = none ∧
    (submit_complaint
      { description := none, category := none, phone := none,
        public_id := none, email := none, location_coords := none }
      1234 0 OFFICER_WORKLOADS).1.priority = none ∧
    (submit_complaint
      { description := none, category := none, phone := none,
        public_id := none, email := none, location_coords := none }
      1234 0 OFFICER_WORKLOADS).2 = OFFICER_WORKLOADS :=
  submit_complaint_validation_failure
    { description := none, category := none, phone := none,
      public_id := none, email := none, location_coords := none }
    1234 0 OFFICER_WORKLOADS (by decide)

/-- Claim C2: the supplied password never influences the login outcome — two
requests differing only in the (non-empty) password field produce identical
results, because the credential check compares the stored hash against a
string derived from the username alone. -/
theorem official_login_password_irrelevant (pyHash : String → Int)
    (username govt_id : Option String) (p1 p2 : String)
    (h1 : p1 ≠ "") (h2 : p2 ≠ "") :
    official_login pyHash username (some p1) govt_id
      = official_login pyHash username (some p2) govt_id := by
  have t1 : truthy (some p1) = true := by simp [truthy, h1]
  have t2 : truthy (some p2) = true := by simp [truthy, h2]
  simp only [official_login, t1, t2]

/-- Witness for C2: with John Doe's username and govt id, the passwords
`"a"` and `"completely-wrong"` give the same outcome. -/
theorem official_login_password_irrelevant_witness :
    official_login (fun _ => 0) (some "john.doe@gov.in") (some "a")
        (some "GOV1001A")
      = official_login (fun _ => 0) (some "john.doe@gov.in")
        (some "completely-wrong") (some "GOV1001A") :=
  official_login_password_irrelevant (fun _ => 0) (some "john.doe@gov.in")
    (some "GOV1001A") "a" "completely-wrong" (by decide) (by decide)

/-- Claim C1 (code behaviour at the failing input): a login for
`john.doe@gov.in` with the correct govt id but an incorrect password
`"wrong_password"` nevertheless succeeds, because app.py line 218 compares
the stored hash against a string derived from the username and never reads
the submitted password after the presence check. -/
theorem official_login_accepts_wrong_password (pyHash : String → Int) :
    official_login pyHash (some "john.doe@gov.in") (some "wrong_password")
        (some "GOV1001A")
      = LoginResult.success
          ("JWT." ++ "Water_Supply_Dept" ++ "." ++ toString (pyHash "john.doe@gov.in"))
          "Water_Supply_Dept" "John Doe" := by
  rfl

/-- Claim C9: the end-to-end scenario — the pothole/flooding submission
passes validation; is refined to `"Pothole_Major"`; scores `7 + jitter`
(7, 8 or 9, always ≥ 7); resolves through base key `"Pothole"` to the
fallback `"General_Admin_Dept"` (whose manager gets the case, leaving the
workload store unchanged); and yields a success response whose tracking id is
`"GRV-"` followed by the current milliseconds modulo one million. -/
theorem end_to_end_scenario (nowMs jitter : Nat) (h : jitter ≤ 2) :
    validate_citizen_input scenarioData = [] ∧
    (ai_categorize_and_score "Major pothole causing dangerous flooding"
      "Road Maintenance" jitter).1 = "Pothole_Major" ∧
    resolveDepartment "Pothole_Major" = "General_Admin_Dept" ∧
    (submit_complaint scenarioData nowMs jitter OFFICER_WORKLOADS).1.success = true ∧
    (submit_complaint scenarioData nowMs jitter OFFICER_WORKLOADS).1.tracking_id
      = some ("GRV-" ++ toString (nowMs % 1000000)) ∧
    (submit_complaint scenarioData nowMs jitter OFFICER_WORKLOADS).1.priority
      = some (7 + (jitter : Int)) ∧
    7 ≤ 7 + (jitter : Int) ∧ 7 + (jitter : Int) ≤ 9 ∧
    (submit_complaint scenarioData nowMs jitter OFFICER_WORKLOADS).1.assigned_to
      = some "General_Admin_Dept_Manager" ∧
    (submit_complaint scenarioData nowMs jitter OFFICER_WORKLOADS).2
      = OFFICER_WORKLOADS := by
  interval_cases jitter <;>
    exact ⟨by decide, by decide, by decide, rfl, rfl, rfl, by decide, by decide,
      rfl, rfl⟩

/-- Witness for C9: at a concrete clock value and jitter 1, the scenario
submission succeeds with priority 8. -/
theorem end_to_end_scenario_witness :
    (submit_complaint scenarioData 1730000000123 1 OFFICER_WORKLOADS).1.success
        = true ∧
    (submit_complaint scenarioData 1730000000123 1 OFFICER_WORKLOADS).1.priority
        = some 8 :=
  ⟨(end_to_end_scenario 1730000000123 1 (by decide)).2.2.2.1,
    ((end_to_end_scenario 1730000000123 1 (by decide)).2.2.2.2.2.1).trans (by decide)⟩

end EGrievance
